import Mathlib

/-!
Verification of `SceneManager.cpp` (OpenGLScene repository).

The file shallowly embeds the state and operations of the `SceneManager`
class.  The OpenGL backend, the stb image decoder and the `ShapeMeshes`
library are external collaborators of this translation unit; they are
modelled as follows:

* The image decoder (`stbi_load`) is an input of `CreateGLTexture`:
  `none` models a decode failure, `some img` a decoded image together with
  its reported width, height and channel count.
* `glGenTextures` hands out fresh texture names; the model keeps a counter
  `nextTextureHandle` in the state and returns successive values from it.
* The shader program (`m_pShaderManager`) is an `Option ShaderState`:
  `none` models a NULL `m_pShaderManager` pointer, `some sh` a live shader
  whose named uniforms are the fields of `ShaderState`.  GLSL floats are
  modelled by rationals, the model matrix by a real 4x4 matrix (real
  numbers stand in for the idealised value of the float computation).
* The fixed 16-entry array `m_textureIDs` together with the counter
  `m_loadedTextures` is modelled by the list of its first
  `m_loadedTextures` entries: the constructor fills all 16 cells with the
  sentinel pair ("/0", -1) and every loop of the class only reads cells
  below `m_loadedTextures`, so the list of occupied cells carries the whole
  observable state.  The array bound 16 itself is kept as the constant
  `textureCapacity`.
-/

namespace OpenGLScene

/-- Result of a successful `stbi_load` call: the decoded image's reported
width, height and channel count (the pixel data itself is never inspected
by `SceneManager`, only passed through to the backend). -/
structure ImageData where
  width : Int
  height : Int
  channels : Int
deriving DecidableEq

/-- One occupied cell of the `m_textureIDs` array: the tag string and the
OpenGL texture name stored for it (`ID` is `-1` when unset). -/
structure TextureSlot where
  tag : String
  ID : Int
deriving DecidableEq

/-- The `OBJECT_MATERIAL` struct: five lighting fields plus the tag. -/
structure OBJECT_MATERIAL where
  ambientColor : ℚ × ℚ × ℚ
  ambientStrength : ℚ
  diffuseColor : ℚ × ℚ × ℚ
  specularColor : ℚ × ℚ × ℚ
  shininess : ℚ
  tag : String
deriving DecidableEq

/-- The uniforms of the shader program that `SceneManager.cpp` writes:
`model`, `objectColor`, `objectTexture`, `bUseTexture`, `UVscale` and the
five `material.*` uniforms. -/
structure ShaderState where
  model : Matrix (Fin 4) (Fin 4) ℝ
  objectColor : ℚ × ℚ × ℚ × ℚ
  objectTexture : Int
  bUseTexture : Bool
  UVscale : ℚ × ℚ
  materialAmbientColor : ℚ × ℚ × ℚ
  materialAmbientStrength : ℚ
  materialDiffuseColor : ℚ × ℚ × ℚ
  materialSpecularColor : ℚ × ℚ × ℚ
  materialShininess : ℚ

/-- The state of a `SceneManager` object (plus the fresh-name counter of
the GL texture allocator). -/
structure SceneState where
  shader : Option ShaderState
  textureIDs : List TextureSlot
  objectMaterials : List OBJECT_MATERIAL
  nextTextureHandle : Int

/-- The size of the `m_textureIDs` array (`SceneManager.h`; the
constructor initialises exactly 16 cells). -/
def textureCapacity : Nat := 16

/-- `SceneManager::SceneManager`: empty registries; the 16 array cells are
set to the sentinel pair and `m_loadedTextures = 0`, i.e. the occupied
prefix is empty.  GL texture names start at 1 (`glGenTextures` never
returns 0 for a fresh name). -/
def SceneManagerInit (pShaderManager : Option ShaderState) : SceneState :=
  { shader := pShaderManager
    textureIDs := []
    objectMaterials := []
    nextTextureHandle := 1 }

/-- `SceneManager::CreateGLTexture`, lines 76-140.  `image` is the result
of `stbi_load`.  On decode success a texture name is generated first
(line 99), then the channel count is checked: 3 and 4 proceed to register
the slot (lines 129-131 append `{ID, tag}` at index `m_loadedTextures` and
increment it), every other count returns `false` having touched neither
`m_textureIDs` nor `m_loadedTextures`.  Decode failure returns `false`
immediately.  (The append has no bounds check against the array size 16 in
the source.) -/
def CreateGLTexture (s : SceneState) (image : Option ImageData) (tag : String) :
    Bool × SceneState :=
  match image with
  | some im =>
    let textureID := s.nextTextureHandle
    let s2 := { s with nextTextureHandle := s.nextTextureHandle + 1 }
    if im.channels = 3 ∨ im.channels = 4 then
      (true, { s2 with textureIDs := s2.textureIDs ++ [⟨tag, textureID⟩] })
    else
      (false, s2)
  | none => (false, s)

/-- `SceneManager::DestroyGLTextures`, lines 164-170: for every occupied
slot `i < m_loadedTextures` it calls `glGenTextures(1, &m_textureIDs[i].ID)`,
i.e. it overwrites each stored handle with a freshly generated texture
name.  Tags and `m_loadedTextures` are left untouched. -/
def destroyScan : List TextureSlot → Int → List TextureSlot
  | [], _ => []
  | r :: rest, h => { r with ID := h } :: destroyScan rest (h + 1)

/-- State-level wrapper for `DestroyGLTextures` (see `destroyScan`). -/
def DestroyGLTextures (s : SceneState) : SceneState :=
  { s with
    textureIDs := destroyScan s.textureIDs s.nextTextureHandle
    nextTextureHandle := s.nextTextureHandle + s.textureIDs.length }

/-- Loop of `SceneManager::FindTextureID`, lines 184-193: first-match
linear scan over the occupied slots, returning the stored ID, or the
initial value -1 when no slot's tag compares equal. -/
def findTextureIDAux : List TextureSlot → String → Int
  | [], _ => -1
  | r :: rest, tag => if r.tag = tag then r.ID else findTextureIDAux rest tag

/-- `SceneManager::FindTextureID`, lines 178-196. -/
def FindTextureID (s : SceneState) (tag : String) : Int :=
  findTextureIDAux s.textureIDs tag

/-- Loop of `SceneManager::FindTextureSlot`, lines 210-219: first-match
linear scan returning the index of the matching slot (the running value of
`index`), or the initial value -1 when no tag matches. -/
def findTextureSlotAux : List TextureSlot → String → Int → Int
  | [], _, _ => -1
  | r :: rest, tag, index =>
    if r.tag = tag then index else findTextureSlotAux rest tag (index + 1)

/-- `SceneManager::FindTextureSlot`, lines 204-222. -/
def FindTextureSlot (s : SceneState) (tag : String) : Int :=
  findTextureSlotAux s.textureIDs tag 0

/-- Inner loop of `SceneManager::FindMaterial`, lines 239-254: first-match
scan; on a hit the five lighting fields (but not the tag) of the stored
preset are copied into the reference parameter `material`; on a miss the
parameter is left as it came in. -/
def findMaterialScan : List OBJECT_MATERIAL → String → OBJECT_MATERIAL → OBJECT_MATERIAL
  | [], _, material => material
  | p :: rest, tag, material =>
    if p.tag = tag then
      { material with
        ambientColor := p.ambientColor
        ambientStrength := p.ambientStrength
        diffuseColor := p.diffuseColor
        specularColor := p.specularColor
        shininess := p.shininess }
    else findMaterialScan rest tag material

/-- `SceneManager::FindMaterial`, lines 230-257: returns `false` only when
the material list is empty (line 232); otherwise it runs the scan and
returns `true` whether or not any tag matched.  The pair is (return value,
final value of the by-reference `material` argument). -/
def FindMaterial (s : SceneState) (tag : String) (material : OBJECT_MATERIAL) :
    Bool × OBJECT_MATERIAL :=
  if s.objectMaterials.length = 0 then
    (false, material)
  else
    (true, findMaterialScan s.objectMaterials tag material)

/- The transform computation works on real 4x4 matrices (the idealised
value of the `glm` float computation); real trigonometric functions have
no executable code, so this section is noncomputable.  Nothing here is
needed by any concrete evaluation: the registry and uniform bookkeeping
above and below stays computable. -/
noncomputable section RealMatrices

/-- `glm::radians`: degrees to radians. -/
def radians (degrees : ℝ) : ℝ := degrees * Real.pi / 180

/-- `glm::scale(v)`: diagonal scaling matrix diag(x, y, z, 1). -/
def scaleMat (v : ℝ × ℝ × ℝ) : Matrix (Fin 4) (Fin 4) ℝ :=
  !![v.1, 0, 0, 0;
     0, v.2.1, 0, 0;
     0, 0, v.2.2, 0;
     0, 0, 0, 1]

/-- `glm::rotate(angle, vec3(1,0,0))`: right-handed rotation about X. -/
def rotationXMat (t : ℝ) : Matrix (Fin 4) (Fin 4) ℝ :=
  !![1, 0, 0, 0;
     0, Real.cos t, -Real.sin t, 0;
     0, Real.sin t, Real.cos t, 0;
     0, 0, 0, 1]

/-- `glm::rotate(angle, vec3(0,1,0))`: right-handed rotation about Y. -/
def rotationYMat (t : ℝ) : Matrix (Fin 4) (Fin 4) ℝ :=
  !![Real.cos t, 0, Real.sin t, 0;
     0, 1, 0, 0;
     -Real.sin t, 0, Real.cos t, 0;
     0, 0, 0, 1]

/-- `glm::rotate(angle, vec3(0,0,1))`: right-handed rotation about Z. -/
def rotationZMat (t : ℝ) : Matrix (Fin 4) (Fin 4) ℝ :=
  !![Real.cos t, -Real.sin t, 0, 0;
     Real.sin t, Real.cos t, 0, 0;
     0, 0, 1, 0;
     0, 0, 0, 1]

/-- `glm::translate(v)`: identity with translation in the last column. -/
def translateMat (v : ℝ × ℝ × ℝ) : Matrix (Fin 4) (Fin 4) ℝ :=
  !![1, 0, 0, v.1;
     0, 1, 0, v.2.1;
     0, 0, 1, v.2.2;
     0, 0, 0, 1]

/-- The `modelView` matrix computed by `SceneManager::SetTransformations`,
line 289: `translation * rotationX * rotationY * rotationZ * scale`, the
rotations taking their angles in radians (lines 281-287). -/
def modelViewMatrix (scaleXYZ : ℝ × ℝ × ℝ)
    (XrotationDegrees YrotationDegrees ZrotationDegrees : ℝ)
    (positionXYZ : ℝ × ℝ × ℝ) : Matrix (Fin 4) (Fin 4) ℝ :=
  translateMat positionXYZ *
    rotationXMat (radians XrotationDegrees) *
    rotationYMat (radians YrotationDegrees) *
    rotationZMat (radians ZrotationDegrees) *
    scaleMat scaleXYZ

/-- `SceneManager::SetTransformations`, lines 265-295: computes the model
matrix and, if `m_pShaderManager` is not NULL, writes it to the `model`
uniform (lines 291-294); with a NULL pointer nothing is written. -/
def SetTransformations (s : SceneState) (scaleXYZ : ℝ × ℝ × ℝ)
    (XrotationDegrees YrotationDegrees ZrotationDegrees : ℝ)
    (positionXYZ : ℝ × ℝ × ℝ) : SceneState :=
  let modelView := modelViewMatrix scaleXYZ
    XrotationDegrees YrotationDegrees ZrotationDegrees positionXYZ
  match s.shader with
  | some sh => { s with shader := some { sh with model := modelView } }
  | none => s

end RealMatrices

/-- `SceneManager::SetShaderColor`, lines 303-322: if `m_pShaderManager`
is not NULL, writes `bUseTexture := false` then `objectColor := rgba`;
with a NULL pointer nothing is written. -/
def SetShaderColor (s : SceneState)
    (redColorValue greenColorValue blueColorValue alphaValue : ℚ) : SceneState :=
  match s.shader with
  | some sh =>
    { s with shader := some { sh with
        bUseTexture := false
        objectColor := (redColorValue, greenColorValue, blueColorValue, alphaValue) } }
  | none => s

/-- `SceneManager::SetShaderTexture`, lines 330-341: if `m_pShaderManager`
is not NULL, writes `bUseTexture := true`, resolves the tag through
`FindTextureSlot` and writes the result to the `objectTexture` sampler
uniform; with a NULL pointer nothing is written (the lookup sits inside
the NULL guard). -/
def SetShaderTexture (s : SceneState) (textureTag : String) : SceneState :=
  match s.shader with
  | some sh =>
    let textureID := FindTextureSlot s textureTag
    { s with shader := some { sh with bUseTexture := true, objectTexture := textureID } }
  | none => s

/-- `SceneManager::SetTextureUVScale`, lines 349-355: if
`m_pShaderManager` is not NULL, writes the `UVscale` uniform; with a NULL
pointer nothing is written. -/
def SetTextureUVScale (s : SceneState) (u v : ℚ) : SceneState :=
  match s.shader with
  | some sh => { s with shader := some { sh with UVscale := (u, v) } }
  | none => s

/-- `SceneManager::SetShaderMaterial`, lines 363-381: whenever the
material list is non-empty, a default-constructed local
`OBJECT_MATERIAL material` is passed by reference to `FindMaterial`; the
local's initial (indeterminate, in C++ uninitialised) contents are the
explicit argument `material0` of this model.  When `FindMaterial` returns
`true` the five `material.*` uniforms are written from the local.  NOTE:
lines 374-378 use `m_pShaderManager` without a NULL check; the `none`
branch of the model returns the state unchanged where the C++ would
dereference a NULL pointer. -/
def SetShaderMaterial (s : SceneState) (materialTag : String)
    (material0 : OBJECT_MATERIAL) : SceneState :=
  if s.objectMaterials.length > 0 then
    let r := FindMaterial s materialTag material0
    if r.1 then
      match s.shader with
      | some sh =>
        { s with shader := some { sh with
            materialAmbientColor := r.2.ambientColor
            materialAmbientStrength := r.2.ambientStrength
            materialDiffuseColor := r.2.diffuseColor
            materialSpecularColor := r.2.specularColor
            materialShininess := r.2.shininess } }
      | none => s
    else s
  else s

/-- `SceneManager::DefineObjectMaterials`, lines 447-500: appends the five
literal material presets, in source order, to `m_objectMaterials`. -/
def DefineObjectMaterials (s : SceneState) : SceneState :=
  let goldMaterial : OBJECT_MATERIAL :=
    { ambientColor := (0.2, 0.2, 0.2), ambientStrength := 0.3
      diffuseColor := (0.2, 0.2, 0.2), specularColor := (0.5, 0.5, 0.5)
      shininess := 22, tag := "metal" }
  let woodMaterial : OBJECT_MATERIAL :=
    { ambientColor := (0.1, 0.1, 0.1), ambientStrength := 0.2
      diffuseColor := (0.3, 0.3, 0.3), specularColor := (0.1, 0.1, 0.1)
      shininess := 0.3, tag := "wood" }
  let glassMaterial : OBJECT_MATERIAL :=
    { ambientColor := (0.4, 0.4, 0.4), ambientStrength := 0.3
      diffuseColor := (0.3, 0.3, 0.3), specularColor := (0.6, 0.6, 0.6)
      shininess := 85, tag := "glass" }
  let cheeseMaterial : OBJECT_MATERIAL :=
    { ambientColor := (0.1, 0.1, 0.1), ambientStrength := 0.2
      diffuseColor := (0.5, 0.5, 0.5), specularColor := (0.1, 0.1, 0.1)
      shininess := 0.3, tag := "cheese" }
  let backdropMaterial : OBJECT_MATERIAL :=
    { ambientColor := (0.6, 0.6, 0.6), ambientStrength := 3
      diffuseColor := (0.6, 0.5, 0.1), specularColor := (0, 0, 0)
      shininess := 0, tag := "backdrop" }
  { s with objectMaterials := s.objectMaterials ++
      [goldMaterial, woodMaterial, glassMaterial, cheeseMaterial, backdropMaterial] }

/-!
Trace model of the rendering routines.  Each `RenderXxx` method of
`SceneManager` is a straight-line sequence of calls to the transform /
shader bridge and to the `ShapeMeshes` draw methods, with literal
arguments; the model records that call sequence as a list of events (the
literal constants of the source, floats as rationals). -/

/-- One `ShapeMeshes` draw request.  `DrawCylinderMesh` carries its three
flags (draw top, draw bottom, draw sides). -/
inductive Primitive where
  | box
  | plane
  | halfSphere
  | torus
  | cylinder (top bottom sides : Bool)
deriving DecidableEq

/-- One call made by a render routine: either a transform/shader-bridge
call with its literal arguments, or a mesh draw request. -/
inductive SceneEvent where
  | setTransformations (scaleXYZ : ℚ × ℚ × ℚ) (xDeg yDeg zDeg : ℚ) (positionXYZ : ℚ × ℚ × ℚ)
  | setShaderColor (r g b a : ℚ)
  | setShaderTexture (tag : String)
  | setTextureUVScale (u v : ℚ)
  | setShaderMaterial (tag : String)
  | draw (p : Primitive)
deriving DecidableEq

/-- The draw requests of a call sequence, in order. -/
def drawCalls (events : List SceneEvent) : List Primitive :=
  events.filterMap fun e =>
    match e with
    | SceneEvent.draw p => some p
    | _ => none

/-- `SceneManager::RenderTable`, lines 692-729. -/
def RenderTable : List SceneEvent :=
  [SceneEvent.setTransformations (20, 0.6, 8) 0 0 0 (0, 0.2, -0.9),
   SceneEvent.setShaderTexture "table",
   SceneEvent.setTextureUVScale 1 1,
   SceneEvent.setShaderMaterial "wood",
   SceneEvent.draw Primitive.box]

/-- `SceneManager::RenderBackdrop`, lines 737-771. -/
def RenderBackdrop : List SceneEvent :=
  [SceneEvent.setTransformations (20, 1, 20) 90 0 0 (0, 15, -10),
   SceneEvent.setShaderColor 0.75 0.75 0.75 1,
   SceneEvent.draw Primitive.plane]

/-- `SceneManager::RenderCheeseWheel`, lines 779-821. -/
def RenderCheeseWheel : List SceneEvent :=
  [SceneEvent.setTransformations (1.1, 0.8, 0.9) 0 0 0 (-1, 1.4, 0),
   SceneEvent.setShaderTexture "cheese_wheel_side",
   SceneEvent.setTextureUVScale 5 1,
   SceneEvent.setShaderMaterial "cheese",
   SceneEvent.draw (Primitive.cylinder false false true),
   SceneEvent.setShaderTexture "cheese_wheel_top",
   SceneEvent.setTextureUVScale 1 1,
   SceneEvent.draw (Primitive.cylinder true false false)]

/-- `SceneManager::RenderBook`, lines 597-684. -/
def RenderBook : List SceneEvent :=
  [SceneEvent.setTransformations (2.2, 0.08, 1.5) 0 (-12) 0 (-1.2, 0.59, 0.3),
   SceneEvent.setShaderColor 1 0.5 0.1 1,
   SceneEvent.setShaderMaterial "wood",
   SceneEvent.draw Primitive.box,
   SceneEvent.setTransformations (0.08, 0.08, 1.5) 0 (-12) 0 (-2.3, 0.59, 0.3),
   SceneEvent.setShaderColor 0.9 0.4 0.05 1,
   SceneEvent.setShaderMaterial "wood",
   SceneEvent.draw Primitive.box,
   SceneEvent.setTransformations (2.15, 0.06, 1.45) 0 (-12) 0 (-1.2, 0.57, 0.3),
   SceneEvent.setShaderColor 0.95 0.95 0.9 1,
   SceneEvent.setShaderMaterial "wood",
   SceneEvent.draw Primitive.box]

/-- `SceneManager::RenderWineGlass`, lines 830-893. -/
def RenderWineGlass : List SceneEvent :=
  [SceneEvent.setTransformations (1, 2, 1) 0 0 0 (6, 1.5, -1.5),
   SceneEvent.setShaderColor 0.7 0.7 0.8 0.3,
   SceneEvent.setShaderMaterial "glass",
   SceneEvent.draw (Primitive.cylinder false false true),
   SceneEvent.setTransformations (1, 0.1, 1) 0 0 0 (6, 0.55, -1.5),
   SceneEvent.setShaderColor 0.7 0.7 0.8 0.3,
   SceneEvent.setShaderMaterial "glass",
   SceneEvent.draw (Primitive.cylinder true false false)]

/-- `SceneManager::RenderWineBottle`, lines 901-1071. -/
def RenderWineBottle : List SceneEvent :=
  [SceneEvent.setTransformations (0.9, 0.3, 0.9) 0 0 180 (4, 0.9, -2.6),
   SceneEvent.setShaderColor 0.06 0.07 0.06 1,
   SceneEvent.setShaderMaterial "glass",
   SceneEvent.draw Primitive.halfSphere,
   SceneEvent.setTransformations (0.9, 4, 0.9) 0 0 0 (4, 0.9, -2.6),
   SceneEvent.setShaderColor 0.06 0.07 0.06 1,
   SceneEvent.setShaderMaterial "glass",
   SceneEvent.draw (Primitive.cylinder false false true),
   SceneEvent.setTransformations (0.905, 0.9, 0.905) 0 (-6) 0 (4, 4.9, -2.6),
   SceneEvent.setShaderColor 0.06 0.07 0.06 1,
   SceneEvent.setShaderMaterial "glass",
   SceneEvent.draw Primitive.halfSphere,
   SceneEvent.setTransformations (0.3, 2, 0.3) 0 0 0 (4, 5.6, -2.6),
   SceneEvent.setShaderColor 0.06 0.07 0.06 1,
   SceneEvent.setShaderMaterial "glass",
   SceneEvent.draw (Primitive.cylinder false false true),
   SceneEvent.setTransformations (0.32, 0.32, 1.5) 90 0 0 (-1.8, 7.4, -2.6),
   SceneEvent.setShaderColor 0.06 0.07 0.06 1,
   SceneEvent.setShaderMaterial "glass",
   SceneEvent.draw Primitive.torus,
   SceneEvent.setTransformations (0.28, 0.28, 0.4) 90 0 0 (-1.8, 7.6, -2.6),
   SceneEvent.setShaderColor 0.06 0.07 0.06 1,
   SceneEvent.setShaderMaterial "glass",
   SceneEvent.draw Primitive.torus]

/-- `SceneManager::RenderScene`, lines 578-588: the six object routines,
executed top to bottom in source order. -/
def RenderScene : List SceneEvent :=
  RenderTable ++ RenderBackdrop ++ RenderCheeseWheel ++
    RenderBook ++ RenderWineGlass ++ RenderWineBottle

/-- A sequence of `CreateGLTexture` calls, executed left to right; each
list entry is the decode result and the tag of one call (the boolean
results are discarded, as in `LoadSceneTextures`). -/
def runLoads (s : SceneState) : List (ImageData × String) → SceneState
  | [] => s
  | (image, tag) :: rest => runLoads (CreateGLTexture s (some image) tag).2 rest

/-- The slots appended by a run of successful loads whose first generated
texture name is `h`: tag of the i-th call paired with name `h + i`. -/
def builtList : Int → List (ImageData × String) → List TextureSlot
  | _, [] => []
  | h, (_, tag) :: rest => ⟨tag, h⟩ :: builtList (h + 1) rest

/-! ### Helper lemmas on the first-match scans -/

/-- The slot scan returns -1 when no tag in the list matches. -/
theorem findTextureSlotAux_miss : ∀ (l : List TextureSlot) (tag : String) (base : Int),
    (∀ r ∈ l, r.tag ≠ tag) → findTextureSlotAux l tag base = -1
  | [], _, _, _ => rfl
  | a :: rest, tag, base, h => by
    have ha : a.tag ≠ tag := h a (by simp)
    rw [findTextureSlotAux, if_neg ha]
    exact findTextureSlotAux_miss rest tag (base + 1) fun x hx => h x (by simp [hx])

/-- The ID scan returns -1 when no tag in the list matches. -/
theorem findTextureIDAux_miss : ∀ (l : List TextureSlot) (tag : String),
    (∀ r ∈ l, r.tag ≠ tag) → findTextureIDAux l tag = -1
  | [], _, _ => rfl
  | a :: rest, tag, h => by
    have ha : a.tag ≠ tag := h a (by simp)
    rw [findTextureIDAux, if_neg ha]
    exact findTextureIDAux_miss rest tag fun x hx => h x (by simp [hx])

/-- The slot scan returns `base + i` when position `i` holds the first
matching tag. -/
theorem findTextureSlotAux_hit : ∀ (l : List TextureSlot) (tag : String) (base : Int)
    (i : ℕ) (r : TextureSlot), l[i]? = some r → r.tag = tag →
    (∀ (k : ℕ) (rk : TextureSlot), k < i → l[k]? = some rk → rk.tag ≠ tag) →
    findTextureSlotAux l tag base = base + i
  | [], _, _, i, r, hget, _, _ => by simp at hget
  | a :: rest, tag, base, 0, r, hget, htag, _ => by
    simp only [List.getElem?_cons_zero, Option.some.injEq] at hget
    subst hget
    rw [findTextureSlotAux, if_pos htag]
    simp
  | a :: rest, tag, base, i + 1, r, hget, htag, hbefore => by
    have ha : a.tag ≠ tag := hbefore 0 a (Nat.succ_pos i) (by simp)
    rw [findTextureSlotAux, if_neg ha]
    have hrec := findTextureSlotAux_hit rest tag (base + 1) i r (by simpa using hget) htag
      fun k rk hk hget2 => hbefore (k + 1) rk (by omega) (by simpa using hget2)
    rw [hrec]
    push_cast
    ring

/-- The ID scan returns the ID stored at the position of the first
matching tag. -/
theorem findTextureIDAux_hit : ∀ (l : List TextureSlot) (tag : String)
    (i : ℕ) (r : TextureSlot), l[i]? = some r → r.tag = tag →
    (∀ (k : ℕ) (rk : TextureSlot), k < i → l[k]? = some rk → rk.tag ≠ tag) →
    findTextureIDAux l tag = r.ID
  | [], _, i, r, hget, _, _ => by simp at hget
  | a :: rest, tag, 0, r, hget, htag, _ => by
    simp only [List.getElem?_cons_zero, Option.some.injEq] at hget
    subst hget
    rw [findTextureIDAux, if_pos htag]
  | a :: rest, tag, i + 1, r, hget, htag, hbefore => by
    have ha : a.tag ≠ tag := hbefore 0 a (Nat.succ_pos i) (by simp)
    rw [findTextureIDAux, if_neg ha]
    exact findTextureIDAux_hit rest tag i r (by simpa using hget) htag
      fun k rk hk hget2 => hbefore (k + 1) rk (by omega) (by simpa using hget2)

/-- The material scan leaves the by-reference parameter as it came in
when no stored tag matches. -/
theorem findMaterialScan_miss : ∀ (l : List OBJECT_MATERIAL) (tag : String)
    (m : OBJECT_MATERIAL), (∀ p ∈ l, p.tag ≠ tag) → findMaterialScan l tag m = m
  | [], _, _, _ => rfl
  | p :: rest, tag, m, h => by
    have hp : p.tag ≠ tag := h p (by simp)
    rw [findMaterialScan, if_neg hp]
    exact findMaterialScan_miss rest tag m fun x hx => h x (by simp [hx])

/-- A live shader whose `material.ambientStrength` uniform currently
holds 5 (all other uniforms neutral); used as a concrete pre-state. -/
def probeShader : ShaderState :=
  { model := fun _ _ => 0
    objectColor := (0, 0, 0, 0)
    objectTexture := -1
    bUseTexture := false
    UVscale := (1, 1)
    materialAmbientColor := (0, 0, 0)
    materialAmbientStrength := 5
    materialDiffuseColor := (0, 0, 0)
    materialSpecularColor := (0, 0, 0)
    materialShininess := 0 }

/-- A concrete value for the default-constructed local
`OBJECT_MATERIAL material` of `SetShaderMaterial` (its C++ contents are
indeterminate; all-zero is one possible content). -/
def probeLocalMaterial : OBJECT_MATERIAL :=
  { ambientColor := (0, 0, 0), ambientStrength := 0
    diffuseColor := (0, 0, 0), specularColor := (0, 0, 0)
    shininess := 0, tag := "" }

/-- A manager holding the five scene materials and the probe shader. -/
def probeState : SceneState :=
  DefineObjectMaterials
    { shader := some probeShader
      textureIDs := []
      objectMaterials := []
      nextTextureHandle := 1 }

/-- Successful loads append tag/handle pairs in call order: running a
sequence of loads whose decoded images all have 3 or 4 channels appends
exactly `builtList` of the sequence to the registry. -/
theorem runLoads_textureIDs : ∀ (loads : List (ImageData × String)) (s : SceneState),
    (∀ p ∈ loads, p.1.channels = 3 ∨ p.1.channels = 4) →
    (runLoads s loads).textureIDs = s.textureIDs ++ builtList s.nextTextureHandle loads
  | [], s, _ => by simp [runLoads, builtList]
  | (im, tag) :: rest, s, h => by
    have hch : im.channels = 3 ∨ im.channels = 4 := by
      simpa using h (im, tag) (by simp)
    rw [runLoads]
    have hstep : (CreateGLTexture s (some im) tag).2 =
        { s with
          textureIDs := s.textureIDs ++ [⟨tag, s.nextTextureHandle⟩]
          nextTextureHandle := s.nextTextureHandle + 1 } := by
      simp [CreateGLTexture, hch]
    rw [hstep, runLoads_textureIDs rest _ fun p hp => h p (by simp [hp])]
    simp [builtList]

/-- Position `i` of the appended slots holds the `i`-th call's tag and
the `i`-th generated texture name. -/
theorem builtList_getElem : ∀ (loads : List (ImageData × String)) (h : Int) (i : ℕ)
    (hi : i < loads.length),
    (builtList h loads)[i]? = some ⟨(loads.get ⟨i, hi⟩).2, h + i⟩
  | [], _, i, hi => by simp at hi
  | (im, tag) :: rest, h, 0, hi => by simp [builtList]
  | (im, tag) :: rest, h, i + 1, hi => by
    have hrec := builtList_getElem rest (h + 1) i (by simpa using hi)
    simp only [builtList, List.getElem?_cons_succ, List.get_cons_succ, hrec,
      Option.some.injEq, TextureSlot.mk.injEq]
    refine ⟨trivial, ?_⟩
    push_cast
    ring

/-! ### Claim theorems -/

/-- **C2 is false as stated** at this input: the material registry holds
the five scene presets, none tagged "notamaterial"; `FindMaterial` on
that tag reports success, and `SetShaderMaterial` nevertheless modifies a
shader uniform: `material.ambientStrength` goes from 5 to 0, the value
held by the (in C++ uninitialised) local that the lookup left untouched.
This refutes "no shader uniform is modified". -/
theorem setShaderMaterial_miss_counterexample :
    (FindMaterial probeState "notamaterial" probeLocalMaterial).1 = true ∧
    (probeState.shader.map fun sh => sh.materialAmbientStrength) = some 5 ∧
    ((SetShaderMaterial probeState "notamaterial" probeLocalMaterial).shader.map
      fun sh => sh.materialAmbientStrength) = some 0 ∧
    (5 : ℚ) ≠ 0 := by
  refine ⟨rfl, rfl, rfl, by norm_num⟩

/-- **C2 (amended)**: `SetShaderMaterial` is a no-op when the material
registry is empty.  When the registry is non-empty and the tag matches no
stored preset, `FindMaterial` still reports success, and
`SetShaderMaterial` then writes all five `material.*` uniforms with the
initial (in C++ indeterminate) contents of its local material variable
rather than leaving them unmodified. -/
theorem setShaderMaterial_empty_noop_miss_writes_local :
    (∀ (s : SceneState) (tag : String) (m0 : OBJECT_MATERIAL),
      s.objectMaterials = [] → SetShaderMaterial s tag m0 = s)
    ∧ (∀ (s : SceneState) (sh : ShaderState) (tag : String) (m0 : OBJECT_MATERIAL),
      s.objectMaterials ≠ [] → (∀ p ∈ s.objectMaterials, p.tag ≠ tag) →
      s.shader = some sh →
      (FindMaterial s tag m0).1 = true ∧
      (SetShaderMaterial s tag m0).shader = some { sh with
        materialAmbientColor := m0.ambientColor
        materialAmbientStrength := m0.ambientStrength
        materialDiffuseColor := m0.diffuseColor
        materialSpecularColor := m0.specularColor
        materialShininess := m0.shininess }) := by
  constructor
  · intro s tag m0 h
    simp [SetShaderMaterial, h]
  · intro s sh tag m0 hne hmiss hsh
    have hlen : ¬s.objectMaterials.length = 0 := by
      simpa [List.length_eq_zero] using hne
    have hfind : FindMaterial s tag m0 = (true, m0) := by
      simp [FindMaterial, hlen, findMaterialScan_miss s.objectMaterials tag m0 hmiss]
    constructor
    · rw [hfind]
    · simp [SetShaderMaterial, List.length_pos.mpr hne, hfind, hsh]

/-- Witness for the amended C2: on an empty registry `SetShaderMaterial`
returns the state unchanged, and on the five-preset registry with the
unregistered tag "notamaterial" the lookup reports success and the five
material uniforms take the local's (all-zero) contents. -/
theorem setShaderMaterial_empty_noop_miss_writes_local_witness :
    SetShaderMaterial (SceneManagerInit none) "wood" probeLocalMaterial =
        SceneManagerInit none ∧
    ((FindMaterial probeState "notamaterial" probeLocalMaterial).1 = true ∧
      (SetShaderMaterial probeState "notamaterial" probeLocalMaterial).shader =
        some { probeShader with
          materialAmbientColor := probeLocalMaterial.ambientColor
          materialAmbientStrength := probeLocalMaterial.ambientStrength
          materialDiffuseColor := probeLocalMaterial.diffuseColor
          materialSpecularColor := probeLocalMaterial.specularColor
          materialShininess := probeLocalMaterial.shininess }) :=
  ⟨setShaderMaterial_empty_noop_miss_writes_local.1 (SceneManagerInit none) "wood"
      probeLocalMaterial rfl,
    setShaderMaterial_empty_noop_miss_writes_local.2 probeState probeShader
      "notamaterial" probeLocalMaterial (by decide) (by decide) rfl⟩

/-- **C3** (evaluation of the defect): after loading one texture tagged
"table" into a fresh manager and then calling `DestroyGLTextures`,
re-querying "table" does NOT return the unset sentinel: the slot lookup
still returns 0 and the handle lookup returns 2, the texture name freshly
generated by line 168 (`glGenTextures` where a delete was intended; tags
and `m_loadedTextures` are never reset). -/
theorem destroyGLTextures_requery_counterexample :
    FindTextureSlot (DestroyGLTextures
      (CreateGLTexture (SceneManagerInit none) (some ⟨4, 4, 3⟩) "table").2) "table" = 0 ∧
    FindTextureID (DestroyGLTextures
      (CreateGLTexture (SceneManagerInit none) (some ⟨4, 4, 3⟩) "table").2) "table" = 2 ∧
    (0 : Int) ≠ -1 ∧ (2 : Int) ≠ -1 := by
  refine ⟨rfl, rfl, by norm_num, by norm_num⟩

/-- **C9** (evaluation of the defect): `CreateGLTexture` has no capacity
check: starting from a fresh manager, the 17th successful load is still
accepted (returns `true`) and the slot count reaches 17, one past the
16-entry capacity of `m_textureIDs` (the C++ registration at line 129
then writes out of bounds). -/
theorem createGLTexture_no_capacity_check :
    (CreateGLTexture
      (runLoads (SceneManagerInit none) (List.replicate 16 (⟨1, 1, 3⟩, "t")))
      (some ⟨1, 1, 3⟩) "t").1 = true ∧
    (runLoads (SceneManagerInit none)
      (List.replicate 17 (⟨1, 1, 3⟩, "t"))).textureIDs.length = 17 ∧
    textureCapacity < 17 := by
  refine ⟨rfl, by decide, by decide⟩

/-- **C1**: `SetTransformations` computes the model matrix as the product
Translate · RotateX · RotateY · RotateZ · Scale in exactly that order and
writes it to the `model` uniform whenever a shader manager is attached;
in particular, for scale (2,1,1), a 90-degree Y rotation, zero X/Z
rotation and position (0,0,0), the resulting matrix maps the point
(1,0,0) to (0,0,-2). -/
theorem setTransformations_model_matrix_spec :
    (∀ (s : SceneState) (sc : ℝ × ℝ × ℝ) (xr yr zr : ℝ) (p : ℝ × ℝ × ℝ),
      (SetTransformations s sc xr yr zr p).shader =
        s.shader.map fun sh => { sh with model := modelViewMatrix sc xr yr zr p })
    ∧ (∀ (sc : ℝ × ℝ × ℝ) (xr yr zr : ℝ) (p : ℝ × ℝ × ℝ),
      modelViewMatrix sc xr yr zr p =
        translateMat p * rotationXMat (radians xr) * rotationYMat (radians yr) *
          rotationZMat (radians zr) * scaleMat sc)
    ∧ Matrix.mulVec (modelViewMatrix (2, 1, 1) 0 90 0 (0, 0, 0)) ![1, 0, 0, 1] =
        ![0, 0, -2, 1] := by
  refine ⟨?_, fun _ _ _ _ _ => rfl, ?_⟩
  · intro s sc xr yr zr p
    cases hs : s.shader <;> simp [SetTransformations, hs]
  · have h90 : radians 90 = Real.pi / 2 := by unfold radians; ring
    have h0 : radians 0 = 0 := by unfold radians; ring
    unfold modelViewMatrix translateMat rotationXMat rotationYMat rotationZMat scaleMat
    rw [h90, h0]
    simp [Real.cos_pi_div_two, Real.sin_pi_div_two]
    funext i
    fin_cases i <;>
      simp [Matrix.mulVec, Matrix.mul_apply, Matrix.dotProduct, Fin.sum_univ_four]

/-- **C4**: after a sequence of `CreateGLTexture` calls with pairwise
distinct tags and valid (3- or 4-channel) decoded images, starting from
an empty registry, `FindTextureSlot` on the `i`-th call's tag returns
`i` (its zero-based index among the loads, all of which succeed), and
`FindTextureID` returns the ID stored in that very slot. -/
theorem load_then_find_consistent (s : SceneState) (loads : List (ImageData × String))
    (h0 : s.textureIDs = [])
    (hvalid : ∀ p ∈ loads, p.1.channels = 3 ∨ p.1.channels = 4)
    (hnodup : (loads.map Prod.snd).Nodup)
    (i : ℕ) (hi : i < loads.length) :
    FindTextureSlot (runLoads s loads) (loads.get ⟨i, hi⟩).2 = i ∧
    ∃ r : TextureSlot, (runLoads s loads).textureIDs[i]? = some r ∧
      r.tag = (loads.get ⟨i, hi⟩).2 ∧
      FindTextureID (runLoads s loads) (loads.get ⟨i, hi⟩).2 = r.ID := by
  have hl : (runLoads s loads).textureIDs = builtList s.nextTextureHandle loads := by
    rw [runLoads_textureIDs loads s hvalid, h0, List.nil_append]
  have hgeti := builtList_getElem loads s.nextTextureHandle i hi
  have hbefore : ∀ (k : ℕ) (rk : TextureSlot), k < i →
      (builtList s.nextTextureHandle loads)[k]? = some rk →
      rk.tag ≠ (loads.get ⟨i, hi⟩).2 := by
    intro k rk hk hgetk
    have hk2 : k < loads.length := lt_trans hk hi
    rw [builtList_getElem loads s.nextTextureHandle k hk2] at hgetk
    cases hgetk
    intro heq
    have hk3 : k < (loads.map Prod.snd).length := by simpa using hk2
    have hi3 : i < (loads.map Prod.snd).length := by simpa using hi
    have hgeq : (loads.map Prod.snd).get ⟨k, hk3⟩ = (loads.map Prod.snd).get ⟨i, hi3⟩ := by
      simp only [List.get_eq_getElem, List.getElem_map]
      simpa [List.get_eq_getElem] using heq
    rw [List.Nodup.get_inj_iff hnodup] at hgeq
    have hki : k = i := congrArg Fin.val hgeq
    omega
  constructor
  · have h := findTextureSlotAux_hit (builtList s.nextTextureHandle loads)
      ((loads.get ⟨i, hi⟩).2) 0 i _ hgeti rfl hbefore
    rw [FindTextureSlot, hl, h]
    simp
  · refine ⟨⟨(loads.get ⟨i, hi⟩).2, s.nextTextureHandle + i⟩, ?_, rfl, ?_⟩
    · rw [hl]; exact hgeti
    · rw [FindTextureID, hl]
      exact findTextureIDAux_hit _ _ i _ hgeti rfl hbefore

/-- Witness for C4: loading a 3-channel image tagged "a" then a 4-channel
image tagged "b" into a fresh manager; lookup of "b" yields slot 1, whose
stored record carries tag "b" and the ID returned by the handle lookup. -/
theorem load_then_find_consistent_witness :
    FindTextureSlot
        (runLoads (SceneManagerInit none) [(⟨1, 1, 3⟩, "a"), (⟨2, 2, 4⟩, "b")]) "b" = 1 ∧
    ∃ r : TextureSlot,
      (runLoads (SceneManagerInit none)
        [(⟨1, 1, 3⟩, "a"), (⟨2, 2, 4⟩, "b")]).textureIDs[1]? = some r ∧
      r.tag = "b" ∧
      FindTextureID
        (runLoads (SceneManagerInit none) [(⟨1, 1, 3⟩, "a"), (⟨2, 2, 4⟩, "b")]) "b" = r.ID := by
  have h := load_then_find_consistent (SceneManagerInit none)
    [(⟨1, 1, 3⟩, "a"), (⟨2, 2, 4⟩, "b")] rfl (by decide) (by decide) 1 (by decide)
  simpa using h

/-- **C5**: a decoded image whose channel count is neither 3 nor 4 makes
`CreateGLTexture` return failure with the texture registry (slot count,
tags and handles) unchanged. -/
theorem createGLTexture_bad_channel_count (s : SceneState) (im : ImageData)
    (tag : String) (h3 : im.channels ≠ 3) (h4 : im.channels ≠ 4) :
    (CreateGLTexture s (some im) tag).1 = false ∧
    (CreateGLTexture s (some im) tag).2.textureIDs = s.textureIDs := by
  simp [CreateGLTexture, h3, h4]

/-- Witness for C5: a 2-channel image is rejected and the registry of a
fresh `SceneManager` stays empty. -/
theorem createGLTexture_bad_channel_count_witness :
    (CreateGLTexture (SceneManagerInit none) (some ⟨8, 8, 2⟩) "gray").1 = false ∧
    (CreateGLTexture (SceneManagerInit none) (some ⟨8, 8, 2⟩) "gray").2.textureIDs =
      (SceneManagerInit none).textureIDs :=
  createGLTexture_bad_channel_count (SceneManagerInit none) ⟨8, 8, 2⟩ "gray"
    (by decide) (by decide)

/-- **C6**: `FindTextureSlot` and `FindTextureID` are first-match linear
scans: on a tag held by no loaded slot both return the sentinel -1, and
when position `i` holds the first slot with the tag they return index `i`
and that slot's stored ID respectively (so with duplicated tags the
earliest-registered slot wins). -/
theorem findTexture_first_match_policy (s : SceneState) (tag : String) :
    ((∀ r ∈ s.textureIDs, r.tag ≠ tag) →
      FindTextureSlot s tag = -1 ∧ FindTextureID s tag = -1)
    ∧ (∀ (i : ℕ) (r : TextureSlot), s.textureIDs[i]? = some r → r.tag = tag →
        (∀ (k : ℕ) (rk : TextureSlot), k < i → s.textureIDs[k]? = some rk → rk.tag ≠ tag) →
        FindTextureSlot s tag = i ∧ FindTextureID s tag = r.ID) := by
  constructor
  · intro h
    exact ⟨findTextureSlotAux_miss _ _ _ h, findTextureIDAux_miss _ _ h⟩
  · intro i r hget htag hbefore
    refine ⟨?_, findTextureIDAux_hit _ _ i r hget htag hbefore⟩
    have h := findTextureSlotAux_hit s.textureIDs tag 0 i r hget htag hbefore
    simpa [FindTextureSlot] using h

/-- Witness for C6: on a registry whose slots 0 and 1 both carry tag "a",
lookup of "a" returns slot 0 and its handle 5, and lookup of the
unregistered tag "zz" returns -1 from both scans. -/
theorem findTexture_first_match_policy_witness :
    (FindTextureSlot ⟨none, [⟨"a", 5⟩, ⟨"a", 7⟩], [], 3⟩ "a" = 0 ∧
      FindTextureID ⟨none, [⟨"a", 5⟩, ⟨"a", 7⟩], [], 3⟩ "a" = 5) ∧
    (FindTextureSlot ⟨none, [⟨"a", 5⟩, ⟨"a", 7⟩], [], 3⟩ "zz" = -1 ∧
      FindTextureID ⟨none, [⟨"a", 5⟩, ⟨"a", 7⟩], [], 3⟩ "zz" = -1) := by
  constructor
  · have h := (findTexture_first_match_policy ⟨none, [⟨"a", 5⟩, ⟨"a", 7⟩], [], 3⟩ "a").2
      0 ⟨"a", 5⟩ rfl rfl (fun k rk hk _ => absurd hk (Nat.not_lt_zero k))
    simpa using h
  · exact (findTexture_first_match_policy ⟨none, [⟨"a", 5⟩, ⟨"a", 7⟩], [], 3⟩ "zz").1
      (by decide)

/-- **C7**: whatever the prior uniform state, `SetShaderColor` leaves the
use-texture flag false and writes the color uniform, and
`SetShaderTexture` leaves the flag true and writes the slot resolved by
`FindTextureSlot` to the sampler-selection uniform. -/
theorem shaderColor_texture_flag_coupling (s : SceneState)
    (r g b a : ℚ) (textureTag : String) :
    (SetShaderColor s r g b a).shader =
      (s.shader.map fun sh =>
        { sh with bUseTexture := false, objectColor := (r, g, b, a) })
    ∧ (SetShaderTexture s textureTag).shader =
      (s.shader.map fun sh =>
        { sh with bUseTexture := true, objectTexture := FindTextureSlot s textureTag }) := by
  cases hs : s.shader <;> simp [SetShaderColor, SetShaderTexture, hs]

/-- **C8**: one render pass runs the object routines in the order table,
backdrop, cheese wheel, book, wine glass, wine bottle, and the wine
bottle routine issues exactly the six draw requests half-sphere,
cylinder, half-sphere, cylinder, torus, torus in that order. -/
theorem renderScene_order_and_wine_bottle_draws :
    RenderScene =
      RenderTable ++ RenderBackdrop ++ RenderCheeseWheel ++
        RenderBook ++ RenderWineGlass ++ RenderWineBottle
    ∧ drawCalls RenderWineBottle =
      [Primitive.halfSphere, Primitive.cylinder false false true,
       Primitive.halfSphere, Primitive.cylinder false false true,
       Primitive.torus, Primitive.torus] :=
  ⟨rfl, rfl⟩

/-- **C10**: with a NULL shader-manager pointer, `SetTransformations`,
`SetShaderColor`, `SetShaderTexture` and `SetTextureUVScale` write no
uniform and return with the state unchanged. -/
theorem null_shader_manager_guard (s : SceneState) (h : s.shader = none)
    (sc p : ℝ × ℝ × ℝ) (xr yr zr : ℝ) (r g b a u v : ℚ) (tag : String) :
    SetTransformations s sc xr yr zr p = s ∧
    SetShaderColor s r g b a = s ∧
    SetShaderTexture s tag = s ∧
    SetTextureUVScale s u v = s := by
  refine ⟨?_, ?_, ?_, ?_⟩ <;>
    simp [SetTransformations, SetShaderColor, SetShaderTexture, SetTextureUVScale, h]

/-- Witness for C10: the four bridge calls leave a fresh `SceneManager`
with a NULL shader pointer untouched. -/
theorem null_shader_manager_guard_witness :
    SetTransformations (SceneManagerInit none) (1, 1, 1) 0 0 0 (0, 0, 0) =
        SceneManagerInit none ∧
    SetShaderColor (SceneManagerInit none) 1 0 0 1 = SceneManagerInit none ∧
    SetShaderTexture (SceneManagerInit none) "table" = SceneManagerInit none ∧
    SetTextureUVScale (SceneManagerInit none) 1 1 = SceneManagerInit none :=
  null_shader_manager_guard (SceneManagerInit none) rfl (1, 1, 1) (0, 0, 0)
    0 0 0 1 0 0 1 1 1 "table"

end OpenGLScene
